import Mathlib

/-!
Verification of the nutrition-calculator core of `app_calorias.py`.

Python floats are modelled by exact rationals (`ℚ`); all the constants that
appear in the source (6.25, 1.2, 1.375, 1.55, 1.725, 1.9, 0.01) are
decimal fractions, so this embedding is exact. Python `None`/falsy values
are modelled by `Option`; a function that can raise and be caught returns
`Option` as well.
-/

/-- Activity multiplier table, from `_fator_atividade`
(src/app_calorias.py lines 145-152): a dictionary lookup over the five
Portuguese activity labels, with default 1.2 for any other key. -/
def _fator_atividade (txt : String) : ℚ :=
  if txt = "Sedentário (pouco ou nenhum exercício)" then 1.2
  else if txt = "Leve (1–3x/semana)" then 1.375
  else if txt = "Moderado (3–5x/semana)" then 1.55
  else if txt = "Alto (6–7x/semana)" then 1.725
  else if txt = "Atleta/Extremo (2x/dia)" then 1.9
  else 1.2

/-- Mifflin-St Jeor BMR, from `_bmr_mifflin` (src/app_calorias.py
lines 154-156): `s = 5 if sex == "Masculino" else -161`, then
`(10*kg) + (6.25*cm) - (5*anos) + s`. -/
def _bmr_mifflin (kg cm : ℚ) (anos : ℤ) (sex : String) : ℚ :=
  let s : ℚ := if sex = "Masculino" then 5 else -161
  (10 * kg) + (6.25 * cm) - (5 * anos) + s

/-- TDEE, from `_tdee` (src/app_calorias.py lines 158-159):
`_bmr_mifflin(kg, cm, anos, sex) * _fator_atividade(atividade_txt)`. -/
def _tdee (kg cm : ℚ) (anos : ℤ) (sex atividade_txt : String) : ℚ :=
  _bmr_mifflin kg cm anos sex * _fator_atividade atividade_txt

/-- Goal-adjusted calorie target, from the inline expression
`kcal_alvo = tdee_val * (1 + ajuste_percent / 100.0)` at
src/app_calorias.py line 1799 (the same expression appears at line 237
inside `render_onboarding`). -/
def kcal_alvo (tdee_val ajuste_percent : ℚ) : ℚ :=
  tdee_val * (1 + ajuste_percent / 100)

/-- The five activity labels that appear as keys of the dictionary in
`_fator_atividade`. -/
def atividade_keys : List String :=
  ["Sedentário (pouco ou nenhum exercício)", "Leve (1–3x/semana)",
   "Moderado (3–5x/semana)", "Alto (6–7x/semana)", "Atleta/Extremo (2x/dia)"]

/-- Modelled from the spec: `kcal_to_macros_grams` (the spec's
`macrosFromPercentages`) is called at src/app_calorias.py lines 1803-1805
but its definition is not under src/. Per the spec: if the three
percentages do not sum to 100 within tolerance 0.01 each is normalized by
dividing by the sum and multiplying by 100; grams are
`(target_kcal * pct/100) / kcal_per_gram` with 4 kcal/g for protein and
carbohydrate and 9 kcal/g for fat; the normalized percentages are returned
alongside the grams; a zero percentage sum is an InvalidInput failure,
modelled as `none`. -/
def kcal_to_macros_grams (kcal p_pct c_pct f_pct : ℚ) :
    Option (ℚ × ℚ × ℚ × (ℚ × ℚ × ℚ)) :=
  let s := p_pct + c_pct + f_pct
  if s = 0 then none
  else
    let pN := if |s - 100| > 1/100 then p_pct / s * 100 else p_pct
    let cN := if |s - 100| > 1/100 then c_pct / s * 100 else c_pct
    let fN := if |s - 100| > 1/100 then f_pct / s * 100 else f_pct
    some (kcal * (pN / 100) / 4, kcal * (cN / 100) / 4, kcal * (fN / 100) / 9,
          (pN, cN, fN))

/-- The condition under which the plan tab shows the normalization notice,
from `abs((p_pct + c_pct + f_pct) - 100) > 0.01` at src/app_calorias.py
line 1806. -/
def normalizacao_notice (p_pct c_pct f_pct : ℚ) : Bool :=
  decide (|(p_pct + c_pct + f_pct) - 100| > 1/100)

/-- Modelled from the spec: `grams_from_gkg` (the spec's
`macrosFromRatios`) is called at src/app_calorias.py lines 1812-1814 but
its definition is not under src/. Per the spec: protein and fat grams are
weight times the per-kg ratios, the remaining calories after protein (4
kcal/g) and fat (9 kcal/g) fund carbohydrates at 4 kcal/g floored at zero,
and the raw remainder is returned so the caller can detect a deficit. The
call site unpacks the result as `prot_g, carb_g, gord_g, kcal_rest`. -/
def grams_from_gkg (peso p_gkg f_gkg kcal : ℚ) : ℚ × ℚ × ℚ × ℚ :=
  let prot := peso * p_gkg
  let gord := peso * f_gkg
  let rest := kcal - (prot * 4 + gord * 9)
  (prot, max 0 (rest / 4), gord, rest)

/-- The condition under which the plan tab appends the insufficient-budget
warning, from `if kcal_rest < 0` at src/app_calorias.py line 1815. -/
def budget_exceeded_warning (kcal_rest : ℚ) : Bool :=
  decide (kcal_rest < 0)

/-- A raw item of the parsed AI response: each field models
`it.get("food")`, `it.get("grams")`, `it.get("confidence")` being present
with a usable (truthy, numeric where required) value, or not. -/
structure RawFoodItem where
  food : Option String
  grams : Option ℚ
  confidence : Option ℚ
deriving DecidableEq, Repr

/-- A sanitized detected food, as appended to `out` at
src/app_calorias.py line 499. -/
structure DetectedFood where
  food : String
  grams : ℚ
  confidence : ℚ
deriving DecidableEq, Repr

/-- A successfully parsed response body: `parsed.get("items") or []`
(src/app_calorias.py line 492) reads an optional items list. -/
structure ParsedResponse where
  items : Option (List RawFoodItem)
deriving DecidableEq, Repr

/-- Python `str.strip()`: drop leading and trailing whitespace. -/
def py_strip (s : String) : String :=
  String.mk
    ((((s.data.dropWhile Char.isWhitespace).reverse.dropWhile
        Char.isWhitespace)).reverse)

/-- The sanitization loop of `ai_detect_foods_from_image_openrouter`
(src/app_calorias.py lines 493-500): strip the food name, default grams
and confidence to 0, keep only items with a non-empty name, clamp grams
below at 0 and confidence into the unit interval. -/
def process_items (items : List RawFoodItem) : List DetectedFood :=
  items.filterMap (fun it =>
    let food := py_strip (it.food.getD "")
    if food ≠ "" then
      some { food := food
             grams := max 0 (it.grams.getD 0)
             confidence := max 0 (min (it.confidence.getD 0) 1) }
    else none)

/-- `ai_detect_foods_from_image_openrouter` (src/app_calorias.py lines
434-503). The two effectful stages are made explicit parameters:
`api_key` is the secret lookup (`none` or the empty string are both falsy
in `if not api_key`); `response` is `none` exactly when the HTTP request,
status check, or JSON extraction raises (the `except` at line 501 returns
the empty list). A response that parsed but lacks an items list yields an
empty item list via `parsed.get("items") or []`. -/
def ai_detect_foods_from_image_openrouter
    (api_key : Option String) (response : Option ParsedResponse) :
    List DetectedFood :=
  if api_key.getD "" = "" then []
  else
    match response with
    | none => []
    | some r => process_items (r.items.getD [])

/-- A Python `datetime.date`: year, month, day. -/
structure PyDate where
  year : ℤ
  month : ℕ
  day : ℕ
deriving DecidableEq, Repr

/-- Python tuple comparison `(a1, a2) < (b1, b2)`: lexicographic. -/
def pytuple_lt (a b : ℕ × ℕ) : Bool :=
  a.1 < b.1 || (a.1 = b.1 && a.2 < b.2)

/-- `_idade_from_dob` (src/app_calorias.py lines 161-165). `date.today()`
is passed explicitly as `today`; a missing (falsy) `dob` is `none`. The
source computes
`today.year - dob.year - ((today.month, today.day) < (dob.month, dob.day))`,
booleans counting as 0 or 1. -/
def _idade_from_dob (today : PyDate) (dob : Option PyDate) : ℤ :=
  match dob with
  | none => 30
  | some d =>
      today.year - d.year -
        (if pytuple_lt (today.month, today.day) (d.month, d.day) then 1 else 0)

/-- C1: for every weight, height, age and sex category, `_bmr_mifflin`
returns `10*weight + 6.25*height - 5*age + sex_offset`, where the offset
is +5 for the male category `"Masculino"` and -161 otherwise. -/
theorem c1_bmr_mifflin_formula (kg cm : ℚ) (anos : ℤ) (sex : String) :
    (sex = "Masculino" →
      _bmr_mifflin kg cm anos sex = 10 * kg + 6.25 * cm - 5 * anos + 5) ∧
    (sex ≠ "Masculino" →
      _bmr_mifflin kg cm anos sex = 10 * kg + 6.25 * cm - 5 * anos - 161) := by
  refine ⟨fun h => ?_, fun h => ?_⟩
  · simp [_bmr_mifflin, h]
  · simp only [_bmr_mifflin, if_neg h]
    ring

/-- Witness for C1 at concrete inputs of both sex categories. -/
theorem c1_bmr_mifflin_formula_witness :
    _bmr_mifflin 75 175 30 "Masculino" = 10 * 75 + 6.25 * 175 - 5 * 30 + 5 ∧
    _bmr_mifflin 80 170 25 "Feminino" = 10 * 80 + 6.25 * 170 - 5 * 25 - 161 :=
  ⟨(c1_bmr_mifflin_formula 75 175 30 "Masculino").1 rfl,
   (c1_bmr_mifflin_formula 80 170 25 "Feminino").2 (by simp)⟩

/-- C2: `_tdee` is the BMR times the activity multiplier; the multiplier
table maps the five activity labels to 1.2, 1.375, 1.55, 1.725, 1.9, and
any string not among the five keys falls back to 1.2. -/
theorem c2_tdee_activity_multiplier (kg cm : ℚ) (anos : ℤ)
    (sex txt : String) :
    _tdee kg cm anos sex txt
      = _bmr_mifflin kg cm anos sex * _fator_atividade txt ∧
    _fator_atividade "Sedentário (pouco ou nenhum exercício)" = 1.2 ∧
    _fator_atividade "Leve (1–3x/semana)" = 1.375 ∧
    _fator_atividade "Moderado (3–5x/semana)" = 1.55 ∧
    _fator_atividade "Alto (6–7x/semana)" = 1.725 ∧
    _fator_atividade "Atleta/Extremo (2x/dia)" = 1.9 ∧
    (txt ∉ atividade_keys → _fator_atividade txt = 1.2) := by
  refine ⟨rfl, by simp [_fator_atividade], by simp [_fator_atividade],
    by simp [_fator_atividade], by simp [_fator_atividade],
    by simp [_fator_atividade], fun h => ?_⟩
  simp only [atividade_keys, List.mem_cons, List.not_mem_nil, or_false,
    not_or] at h
  obtain ⟨h1, h2, h3, h4, h5⟩ := h
  simp [_fator_atividade, h1, h2, h3, h4, h5]

/-- Witness for C2: an unmapped activity string gets multiplier 1.2. -/
theorem c2_tdee_activity_multiplier_witness :
    _fator_atividade "Intenso" = 1.2 :=
  (c2_tdee_activity_multiplier 75 175 30 "Masculino" "Intenso").2.2.2.2.2.2
    (by simp [atividade_keys])

/-- C3: the plan-tab target-calorie expression is
`tdee * (1 + adjustment_percent/100)` for every signed adjustment, with no
clamping (the quantification is unrestricted, covering values outside
[-40, 40]); in particular 2000 kcal adjusted by -20% gives 1600 and by
+15% gives 2300. -/
theorem c3_kcal_alvo_formula (tdee_val ajuste_percent : ℚ) :
    kcal_alvo tdee_val ajuste_percent
      = tdee_val * (1 + ajuste_percent / 100) ∧
    kcal_alvo 2000 (-20) = 1600 ∧
    kcal_alvo 2000 15 = 2300 :=
  ⟨rfl, by norm_num [kcal_alvo], by norm_num [kcal_alvo]⟩

/-- C8 counterexample: on male, 75 kg, 175 cm, 30 years the code returns
1698.75 kcal/day, not the 1674.75 of the claim. -/
theorem c8_bmr_example_counterexample :
    _bmr_mifflin 75 175 30 "Masculino" ≠ 1674.75 := by
  norm_num [_bmr_mifflin]

/-- C8 (amended): `_bmr_mifflin` applied to weight 75 kg, height 175 cm,
age 30, male category returns 1698.75 kcal/day
(= 750 + 1093.75 - 150 + 5, the closed-form Mifflin-St Jeor value). -/
theorem c8_bmr_example :
    _bmr_mifflin 75 175 30 "Masculino" = 1698.75 := by
  norm_num [_bmr_mifflin]

/-- C4: for a positive percentage sum the percentage method succeeds:
the reported percentages are the inputs normalized to sum 100 exactly when
the input sum misses 100 by more than 0.01 (and the inputs unchanged
otherwise), and each gram count is `target * pct/100 / kcal_per_gram`
with 4 kcal/g for protein and carbohydrate, 9 kcal/g for fat. -/
theorem c4_macros_from_percentages (kcal p c f : ℚ) (hpos : 0 < p + c + f) :
    (∃ pN cN fN,
      kcal_to_macros_grams kcal p c f =
        some (kcal * (pN / 100) / 4, kcal * (cN / 100) / 4,
              kcal * (fN / 100) / 9, (pN, cN, fN)) ∧
      ((|p + c + f - 100| > 1/100 ∧
          pN = p / (p + c + f) * 100 ∧ cN = c / (p + c + f) * 100 ∧
          fN = f / (p + c + f) * 100) ∨
       (¬(|p + c + f - 100| > 1/100) ∧ pN = p ∧ cN = c ∧ fN = f))) ∧
    kcal_to_macros_grams 2000 30 40 30 =
      some (150, 200, 200/3, (30, 40, 30)) ∧
    normalizacao_notice 30 40 30 = false := by
  have hs : p + c + f ≠ 0 := ne_of_gt hpos
  refine ⟨?_, by norm_num [kcal_to_macros_grams],
    by norm_num [normalizacao_notice]⟩
  simp only [kcal_to_macros_grams]
  rw [if_neg hs]
  by_cases ht : |p + c + f - 100| > 1/100
  · simp only [if_pos ht]
    exact ⟨p / (p + c + f) * 100, c / (p + c + f) * 100, f / (p + c + f) * 100,
      rfl, Or.inl ⟨ht, rfl, rfl, rfl⟩⟩
  · simp only [if_neg ht]
    exact ⟨p, c, f, rfl, Or.inr ⟨ht, rfl, rfl, rfl⟩⟩

/-- Witness for C4 at the spec's worked example (2000, 30, 40, 30). -/
theorem c4_macros_from_percentages_witness :
    kcal_to_macros_grams 2000 30 40 30 =
      some (150, 200, 200/3, (30, 40, 30)) ∧
    normalizacao_notice 30 40 30 = false :=
  (c4_macros_from_percentages 2000 30 40 30 (by norm_num)).2

/-- C5: when the three percentages sum to zero the percentage method fails
(returns `none`, the InvalidInput condition) rather than producing any gram
values. -/
theorem c5_zero_sum_invalid (kcal p c f : ℚ) (h : p + c + f = 0) :
    kcal_to_macros_grams kcal p c f = none := by
  simp [kcal_to_macros_grams, h]

/-- Witness for C5: the all-zero percentages fail. -/
theorem c5_zero_sum_invalid_witness :
    kcal_to_macros_grams 2000 0 0 0 = none :=
  c5_zero_sum_invalid 2000 0 0 0 (by norm_num)

/-- C6: the ratio method returns protein and fat grams from the per-kg
ratios, the raw calorie remainder, and carbohydrate grams equal to
`max 0 (remainder/4)`; whenever the remainder is negative the plan tab's
warning condition fires; at (75, 2.5, 1.0, 1400) the result is
(187.5, 0, 75, -25) with the warning raised. -/
theorem c6_grams_from_gkg (peso p_gkg f_gkg kcal : ℚ) :
    (grams_from_gkg peso p_gkg f_gkg kcal).1 = peso * p_gkg ∧
    (grams_from_gkg peso p_gkg f_gkg kcal).2.2.1 = peso * f_gkg ∧
    (grams_from_gkg peso p_gkg f_gkg kcal).2.2.2
      = kcal - (peso * p_gkg * 4 + peso * f_gkg * 9) ∧
    (grams_from_gkg peso p_gkg f_gkg kcal).2.1
      = max 0 ((kcal - (peso * p_gkg * 4 + peso * f_gkg * 9)) / 4) ∧
    ((grams_from_gkg peso p_gkg f_gkg kcal).2.2.2 < 0 →
      budget_exceeded_warning
        (grams_from_gkg peso p_gkg f_gkg kcal).2.2.2 = true) ∧
    grams_from_gkg 75 2.5 1 1400 = (187.5, 0, 75, -25) ∧
    budget_exceeded_warning (-25) = true := by
  refine ⟨rfl, rfl, rfl, rfl, fun h => decide_eq_true h, ?_,
    by norm_num [budget_exceeded_warning]⟩
  have h1 : ((1400 : ℚ) - (75 * 2.5 * 4 + 75 * 1 * 9)) = -25 := by norm_num
  simp only [grams_from_gkg, h1]
  norm_num

/-- Witness for C6: the warning condition fires on the spec's (75, 2.5,
1.0, 1400) example, whose calorie remainder is negative. -/
theorem c6_grams_from_gkg_witness :
    budget_exceeded_warning (grams_from_gkg 75 2.5 1 1400).2.2.2 = true :=
  (c6_grams_from_gkg 75 2.5 1 1400).2.2.2.2.1 (by norm_num [grams_from_gkg])

/-- An integer within 0.01 of 100 is 100: the tolerance check of the
percentage method cannot leave a nonzero error for the integer
percentages the plan tab's number inputs produce. -/
lemma nat_cast_near_100 (n : ℕ) (h : ¬(|(n : ℚ) - 100| > 1/100)) :
    (n : ℚ) = 100 := by
  push_neg at h
  by_contra hne
  have hz : ((n : ℤ) - 100) ≠ 0 := by
    intro h0
    apply hne
    have : (n : ℤ) = 100 := by linarith
    exact_mod_cast this
  have h1 : (1 : ℚ) ≤ |(n : ℚ) - 100| := by
    have := Int.one_le_abs hz
    calc (1 : ℚ) ≤ ((|(n : ℤ) - 100| : ℤ) : ℚ) := by exact_mod_cast this
    _ = |(n : ℚ) - 100| := by push_cast; rw [abs_sub_comm]
  linarith

/-- C7: for integer percentages with positive sum (the plan tab passes
integer number-input values), the calorie equivalents of the grams
returned by the percentage method reproduce the target calories to within
1 kcal (in fact exactly, over exact arithmetic). -/
theorem c7_percentage_roundtrip (kcal : ℚ) (p c f : ℕ)
    (hpos : 0 < p + c + f) (gp gc gf : ℚ) (rest : ℚ × ℚ × ℚ)
    (he : kcal_to_macros_grams kcal p c f = some (gp, gc, gf, rest)) :
    |gp * 4 + gc * 4 + gf * 9 - kcal| ≤ 1 := by
  have hs : ((p : ℚ) + c + f) ≠ 0 := by
    have : (0 : ℚ) < (p : ℚ) + c + f := by exact_mod_cast hpos
    exact ne_of_gt this
  have key : gp * 4 + gc * 4 + gf * 9 = kcal := by
    simp only [kcal_to_macros_grams] at he
    rw [if_neg hs] at he
    by_cases ht : |(p : ℚ) + c + f - 100| > 1/100
    · simp only [if_pos ht, Option.some.injEq, Prod.mk.injEq] at he
      obtain ⟨h1, h2, h3, -⟩ := he
      subst h1 h2 h3
      field_simp
      ring
    · have h100 : (p : ℚ) + c + f = 100 := by
        have := nat_cast_near_100 (p + c + f) (by push_cast; exact ht)
        push_cast at this
        exact this
      simp only [if_neg ht, Option.some.injEq, Prod.mk.injEq] at he
      obtain ⟨h1, h2, h3, -⟩ := he
      subst h1 h2 h3
      linear_combination (kcal / 100) * h100
  rw [key]
  simp

/-- Witness for C7 at the spec's worked example (2000, 30, 40, 30). -/
theorem c7_percentage_roundtrip_witness :
    |(150 : ℚ) * 4 + 200 * 4 + (200/3) * 9 - 2000| ≤ 1 :=
  c7_percentage_roundtrip 2000 30 40 30 (by norm_num) 150 200 (200/3)
    (30, 40, 30) (by norm_num [kcal_to_macros_grams])

/-- C9: every detected food returned by the AI pipeline has a non-empty
(stripped) name, non-negative grams, and confidence clamped into [0, 1];
a missing (or empty) API key, a failed request, an unparseable response
body, and a parsed body with no items list each yield the empty list. -/
theorem c9_ai_detect_sanitized (api_key : Option String)
    (response : Option ParsedResponse) (item : DetectedFood) :
    (item ∈ ai_detect_foods_from_image_openrouter api_key response →
      item.food ≠ "" ∧ 0 ≤ item.grams ∧
        0 ≤ item.confidence ∧ item.confidence ≤ 1) ∧
    ai_detect_foods_from_image_openrouter none response = [] ∧
    ai_detect_foods_from_image_openrouter api_key none = [] ∧
    ai_detect_foods_from_image_openrouter api_key (some ⟨none⟩) = [] := by
  refine ⟨fun hm => ?_, by simp [ai_detect_foods_from_image_openrouter],
    by simp [ai_detect_foods_from_image_openrouter],
    by simp [ai_detect_foods_from_image_openrouter, process_items]⟩
  unfold ai_detect_foods_from_image_openrouter at hm
  split at hm
  · simp at hm
  · match response, hm with
    | some r, hm =>
      simp only [process_items, List.mem_filterMap] at hm
      obtain ⟨raw, -, hsan⟩ := hm
      by_cases hfood : py_strip (raw.food.getD "") = ""
      · simp [hfood] at hsan
      · simp only [ne_eq, hfood, not_false_eq_true, if_true,
          Option.some.injEq] at hsan
        subst hsan
        refine ⟨hfood, le_max_left 0 _, le_max_left 0 _, ?_⟩
        exact max_le (by norm_num) (min_le_right _ 1)

/-- Witness for C9: a response with one well-formed item produces an item
satisfying the invariants. -/
theorem c9_ai_detect_sanitized_witness :
    ("arroz" : String) ≠ "" ∧ (0 : ℚ) ≤ 150 ∧
      (0 : ℚ) ≤ 4/5 ∧ (4/5 : ℚ) ≤ 1 :=
  (c9_ai_detect_sanitized (some "k")
      (some ⟨some [⟨some "arroz", some 150, some (4/5)⟩]⟩)
      ⟨"arroz", 150, 4/5⟩).1
    (by
      norm_num [ai_detect_foods_from_image_openrouter, process_items]
      decide)

/-- C10: `_idade_from_dob` returns the default age 30 when the date of
birth is missing, and otherwise the completed years:
`today.year - dob.year`, minus one exactly when (today.month, today.day)
lexicographically precedes (dob.month, dob.day). -/
theorem c10_idade_from_dob (today : PyDate) :
    _idade_from_dob today none = 30 ∧
    ∀ d, _idade_from_dob today (some d) =
      today.year - d.year -
        (if today.month < d.month ∨
            (today.month = d.month ∧ today.day < d.day)
         then 1 else 0) := by
  refine ⟨rfl, fun d => ?_⟩
  simp only [_idade_from_dob, pytuple_lt, Bool.or_eq_true, Bool.and_eq_true,
    decide_eq_true_eq]
